import Mathlib

/-!
Verification of the chemical-equipment-visualizer upload pipeline:
CSV validation (serializers.py), parsing and imputation (utils.py),
statistics aggregation (utils.py), retention policy and the dataset
endpoints (views.py), and the report table fragments (utils.py).
Python floats are modelled as exact rationals; a pandas NaN is modelled
explicitly (Cell.na for cells, PFloat.nan for float results).
-/

namespace CEV

/-- A cell of a pandas DataFrame after reading a CSV: a missing value (NaN),
a numeric value, or a non-numeric string. -/
inductive Cell where
  | na : Cell
  | num : ℚ → Cell
  | str : String → Cell
  deriving DecidableEq

/-- A pandas DataFrame: an association list of column name to column cells,
together with the row count. -/
structure DF where
  cols : List (String × List Cell)
  nrows : ℕ
  deriving DecidableEq

/-- Column names of the DataFrame, in order. -/
def DF.columns (df : DF) : List String := df.cols.map Prod.fst

/-- First column with a given name in an association list of columns. -/
def lookupCol : List (String × List Cell) → String → List Cell
  | [], _ => []
  | p :: ps, c => if p.1 == c then p.2 else lookupCol ps c

/-- Cells of a named column (first match, as in pandas indexing). -/
def DF.get (df : DF) (c : String) : List Cell := lookupCol df.cols c

/-- Whether a cell is a non-numeric string entry. -/
def Cell.isStr : Cell → Bool
  | .str _ => true
  | _ => false

/-- pandas to_numeric with coercion: non-numeric strings become NaN. -/
def toNumericCoerce : Cell → Cell
  | .str _ => .na
  | c => c

/-- pandas fillna on one cell. -/
def fillNA (v : Cell) : Cell → Cell
  | .na => v
  | c => c

/-- Upload size limit from serializers.py: 5 * 1024 * 1024 bytes. -/
def MAX_UPLOAD_BYTES : ℕ := 5 * 1024 * 1024

/-- REQUIRED_COLUMNS from DatasetUploadSerializer. -/
def REQUIRED_COLUMNS : List String :=
  ["Equipment_Name", "Type", "Flowrate", "Pressure", "Temperature"]

/-- The numeric columns checked by the validator and coerced by the parser. -/
def NUMERIC_COLUMNS : List String := ["Flowrate", "Pressure", "Temperature"]

/-- The text columns imputed by the parser. -/
def STRING_COLUMNS : List String := ["Equipment_Name", "Type"]

/-- Python str.strip on a character list: drop whitespace from both ends. -/
def pyStripList (l : List Char) : List Char :=
  ((l.dropWhile Char.isWhitespace).reverse.dropWhile Char.isWhitespace).reverse

/-- Python str.strip, as used by pandas str.strip on column names. -/
def pyStrip (s : String) : String := String.mk (pyStripList s.data)

/-- Python str.endswith. -/
def pyEndsWith (s pat : String) : Bool :=
  s.data.drop (s.data.length - pat.data.length) == pat.data

/-- Column-name normalization used by the validator: replace spaces with underscores. -/
def normalizeCol (s : String) : String :=
  String.mk (s.data.map (fun ch => if ch = ' ' then '_' else ch))

/-- df.columns.str.strip applied to a whole DataFrame. -/
def stripCols (df : DF) : DF :=
  ⟨df.cols.map (fun p => (pyStrip p.1, p.2)), df.nrows⟩

/-- Number of missing cells in a column (Series.isna().sum()). -/
def naCount (cells : List Cell) : ℕ := cells.countP (fun c => c == Cell.na)

/-- First error produced by a per-column check, in column order. -/
def firstError (f : String → Option String) : List String → Option String
  | [] => none
  | c :: cs =>
    match f c with
    | some m => some m
    | none => firstError f cs

/-- The numeric well-formedness check of the validator for one column:
pd.to_numeric with errors raise fails exactly when the column holds a
non-numeric string entry (NaN cells pass through without error); indexing an
absent column raises a KeyError, surfaced by the outer exception handler. -/
def numericColError (df : DF) (c : String) : Option String :=
  if c ∈ df.columns then
    if (df.get c).any Cell.isStr then
      some ("Column " ++ c ++ " must contain numeric values only.")
    else none
  else some ("KeyError: " ++ c)

/-- The comparison missing_pct greater than 50, written over the integers;
ratioExceeded_iff shows it agrees with the percentage formula of the source
whenever the DataFrame has rows. -/
def ratioExceeded (nNA nRows : ℕ) : Bool := decide (50 * nRows < 100 * nNA)

/-- The missing-ratio check of the validator for one column: more than 50
percent missing values is rejected; indexing an absent column raises a
KeyError, surfaced by the outer exception handler. -/
def ratioColError (df : DF) (c : String) : Option String :=
  if c ∈ df.columns then
    if ratioExceeded (naCount (df.get c)) df.nrows then
      some ("Column " ++ c ++ " has too many missing values. Please provide a cleaner dataset.")
    else none
  else some ("KeyError: " ++ c)

/-- DatasetUploadSerializer.validate_file from serializers.py. The file is
given as its declared name, its byte size, and its parsed content
(none when pandas cannot parse it). Returns some error message on rejection
and none on acceptance (the source returns the file object unchanged).
Errors raised inside the try block are re-wrapped by the final generic
exception handler, hence the common message head on those branches. -/
def validate_file (filename : String) (filesize : ℕ) (content : Option DF) :
    Option String :=
  if !(pyEndsWith filename ".csv") then
    some "Invalid file format. Please upload a CSV file."
  else if MAX_UPLOAD_BYTES < filesize then
    some "File size exceeds 5MB limit."
  else
    match content with
    | none => some "Unable to parse CSV file. Please check the file format."
    | some df0 =>
      if df0.nrows = 0 ∨ df0.cols = [] then
        some "Error processing CSV file: CSV file is empty. Please upload a file with data."
      else
        let df := stripCols df0
        let normalized := df.columns.map normalizeCol
        let missing := REQUIRED_COLUMNS.filter (fun c => !(normalized.contains c))
        if missing ≠ [] then
          some ("Error processing CSV file: Missing required columns: " ++
            String.intercalate ", " missing)
        else
          match firstError (numericColError df) NUMERIC_COLUMNS with
          | some m => some ("Error processing CSV file: " ++ m)
          | none =>
            match firstError (ratioColError df) REQUIRED_COLUMNS with
            | some m => some ("Error processing CSV file: " ++ m)
            | none => none

/-- Known numeric values of a column, in order. -/
def knownVals (cells : List Cell) : List ℚ :=
  cells.filterMap (fun c => match c with | .num q => some q | _ => none)

/-- Series.mean over the known values; none models the NaN result of an
all-missing column. -/
def seriesMean (cells : List Cell) : Option ℚ :=
  let k := knownVals cells
  if k.length = 0 then none else some (k.sum / (k.length : ℚ))

/-- One numeric column of parse_csv_file: coerce to numeric, then fill the
missing cells with the column mean (filling with NaN is the identity). -/
def fillWithMean (cells : List Cell) : List Cell :=
  let cs := cells.map toNumericCoerce
  match seriesMean cs with
  | none => cs
  | some m => cs.map (fillNA (.num m))

/-- In-place update of a named column when present (identity when absent). -/
def DF.update (df : DF) (c : String) (f : List Cell → List Cell) : DF :=
  ⟨df.cols.map (fun p => if p.1 = c then (p.1, f p.2) else p), df.nrows⟩

/-- parse_csv_file from utils.py (on the already-read DataFrame): strip
column names, coerce and mean-impute each present numeric column, then fill
missing text cells with the literal Unknown. -/
def parse_csv_file (df0 : DF) : DF :=
  let d1 := stripCols df0
  let d2 := NUMERIC_COLUMNS.foldl (fun d c => d.update c fillWithMean) d1
  STRING_COLUMNS.foldl (fun d c => d.update c (List.map (fillNA (.str "Unknown")))) d2

/-- A Python float result: NaN or a finite value modelled as a rational. -/
inductive PFloat where
  | nan : PFloat
  | val : ℚ → PFloat
  deriving DecidableEq

/-- float(Series.mean()): NaN when the column has no known value. -/
def seriesMeanF (cells : List Cell) : PFloat :=
  match seriesMean cells with
  | none => .nan
  | some q => .val q

/-- Occurrences of one key in a column. -/
def countKey (l : List Cell) (c : Cell) : ℕ := l.countP (fun x => x == c)

/-- Distinct values of a column in order of first appearance (fuel-driven
structural recursion; the fuel is the list length, which bounds the number
of distinct values). -/
def distinctAux : ℕ → List Cell → List Cell
  | 0, _ => []
  | _ + 1, [] => []
  | fuel + 1, c :: rest => c :: distinctAux fuel (rest.filter (fun x => !(x == c)))

/-- Distinct values of a column in order of first appearance. -/
def distinctKeys (l : List Cell) : List Cell := distinctAux l.length l

/-- Pairs ordered by descending count (the sort key of value_counts and of
the report distribution table). -/
def countGE (x y : Cell × ℕ) : Prop := y.2 ≤ x.2

instance : DecidableRel countGE := fun x y => inferInstanceAs (Decidable (y.2 ≤ x.2))

instance : IsTotal (Cell × ℕ) countGE := ⟨fun x y => le_total y.2 x.2⟩

instance : IsTrans (Cell × ℕ) countGE := ⟨fun _ _ _ h h2 => le_trans h2 h⟩

/-- Stable sort by count descending (Python sorted with reverse=True is
stable; insertionSort with countGE keeps earlier equal-count entries first). -/
def sortCountDesc (l : List (Cell × ℕ)) : List (Cell × ℕ) :=
  List.insertionSort countGE l

/-- Series.value_counts().to_dict(): counts of each distinct non-missing
value, sorted by count descending. -/
def valueCounts (l : List Cell) : List (Cell × ℕ) :=
  let l0 := l.filter (fun c => !(c == Cell.na))
  sortCountDesc ((distinctKeys l0).map (fun c => (c, countKey l0 c)))

/-- The statistics dictionary built by calculate_statistics. -/
structure Stats where
  total_equipment : ℕ
  avg_flowrate : Option PFloat
  avg_pressure : Option PFloat
  avg_temperature : Option PFloat
  equipment_distribution : List (Cell × ℕ)
  deriving DecidableEq

/-- One average entry of calculate_statistics: the column mean as a Python
float when the column is present, Python None otherwise. -/
def statAvg (df : DF) (c : String) : Option PFloat :=
  if c ∈ df.columns then some (seriesMeanF (df.get c)) else none

/-- calculate_statistics from utils.py. -/
def calculate_statistics (df : DF) : Stats :=
  { total_equipment := df.nrows
    avg_flowrate := statAvg df "Flowrate"
    avg_pressure := statAvg df "Pressure"
    avg_temperature := statAvg df "Temperature"
    equipment_distribution :=
      if "Type" ∈ df.columns then valueCounts (df.get "Type") else [] }

/-- dataframe_to_json from utils.py: row records in row order (NaN cells
correspond to JSON null). -/
def dataframe_to_json (df : DF) : List (List (String × Cell)) :=
  (List.range df.nrows).map (fun i => df.cols.map (fun p => (p.1, p.2.getD i Cell.na)))

/-- A persisted Dataset row (models.py), with the fields the API reads. -/
structure StoredDataset where
  id : ℕ
  owner : ℕ
  name : String
  uploaded_at : ℕ
  data_json : List (List (String × Cell))
  total_equipment : ℕ
  avg_flowrate : Option PFloat
  avg_pressure : Option PFloat
  avg_temperature : Option PFloat
  equipment_distribution : List (Cell × ℕ)
  deriving DecidableEq

/-- The persistent store: the Dataset table. -/
structure Store where
  datasets : List StoredDataset
  deriving DecidableEq

/-- Modelled from the spec: the Django settings constant
MAX_DATASETS_PER_USER read by views.py (the settings module is not among the
sources); the spec fixes the retention cap at 5 datasets per user. -/
def MAX_DATASETS_PER_USER : ℕ := 5

/-- Datasets ordered by descending upload timestamp (newest first). -/
def tsGE (x y : StoredDataset) : Prop := y.uploaded_at ≤ x.uploaded_at

instance : DecidableRel tsGE := fun x y =>
  inferInstanceAs (Decidable (y.uploaded_at ≤ x.uploaded_at))

instance : IsTotal StoredDataset tsGE := ⟨fun x y => le_total y.uploaded_at x.uploaded_at⟩

instance : IsTrans StoredDataset tsGE := ⟨fun _ _ _ h h2 => le_trans h2 h⟩

/-- Dataset.objects.filter(user=...): the datasets one user owns. -/
def ownedBy (store : Store) (u : ℕ) : List StoredDataset :=
  store.datasets.filter (fun d => d.owner == u)

/-- Dataset.objects.filter(user=...).order_by newest first. -/
def userDatasetsDesc (store : Store) (u : ℕ) : List StoredDataset :=
  List.insertionSort tsGE (ownedBy store u)

/-- The retention block of DatasetViewSet.upload: when the user owns more
than the cap, delete (by primary key) every dataset beyond the cap in the
newest-first ordering. -/
def retentionSweep (store : Store) (u : ℕ) : Store :=
  let uds := userDatasetsDesc store u
  if MAX_DATASETS_PER_USER < uds.length then
    let doomed := uds.drop MAX_DATASETS_PER_USER
    ⟨store.datasets.filter (fun d => !(doomed.any (fun e => e.id == d.id)))⟩
  else store

/-- An upload request: declared filename, declared size, parsed content
(none when pandas cannot parse the bytes as CSV). -/
structure UploadRequest where
  filename : String
  filesize : ℕ
  content : Option DF
  deriving DecidableEq

/-- Outcome of DatasetViewSet.upload. -/
inductive UploadOutcome where
  | created : StoredDataset → UploadOutcome
  | badRequest : String → UploadOutcome
  deriving DecidableEq

/-- The Dataset.objects.create call of DatasetViewSet.upload, built from the
parsed DataFrame and its statistics. -/
def mkDataset (u freshId ts : ℕ) (filename : String) (df : DF) : StoredDataset :=
  let stats := calculate_statistics df
  { id := freshId
    owner := u
    name := filename
    uploaded_at := ts
    data_json := dataframe_to_json df
    total_equipment := stats.total_equipment
    avg_flowrate := stats.avg_flowrate
    avg_pressure := stats.avg_pressure
    avg_temperature := stats.avg_temperature
    equipment_distribution := stats.equipment_distribution }

/-- DatasetViewSet.upload from views.py: validate, parse, aggregate, persist,
then apply the retention sweep. All deterministic failures (validation and
parse errors) happen before anything is persisted; the branch for content
that validated yet cannot be parsed is unreachable because validate_file
already rejects unparsable content. -/
def upload (store : Store) (u freshId ts : ℕ) (req : UploadRequest) :
    Store × UploadOutcome :=
  match validate_file req.filename req.filesize req.content with
  | some msg => (store, .badRequest msg)
  | none =>
    match req.content with
    | none => (store, .badRequest "Error parsing CSV file")
    | some df0 =>
      let d := mkDataset u freshId ts req.filename (parse_csv_file df0)
      (retentionSweep ⟨store.datasets ++ [d]⟩ u, .created d)

/-- An API response: a payload-carrying success or an error with a message. -/
inductive Resp where
  | okDataset : ℕ → StoredDataset → Resp
  | okStats : ℕ → StoredDataset → Resp
  | okMessage : ℕ → String → Resp
  | err : ℕ → String → Resp
  deriving DecidableEq

/-- Dataset.objects.get(pk=pk, user=user): the single-row lookup shared by
retrieve, destroy and statistics. -/
def dbGet (store : Store) (u pk : ℕ) : Option StoredDataset :=
  store.datasets.find? (fun d => d.id == pk && d.owner == u)

/-- Python truthiness of an optional float: None and 0.0 are falsy, NaN and
every other float are truthy. -/
def pyTruthy : Option PFloat → Bool
  | none => false
  | some .nan => true
  | some (.val q) => !(q == 0)

/-- Round to the nearest integer, ties to even (the rounding of Python
round and of float formatting, on the exact rational model). -/
def roundHalfEven (x : ℚ) : ℤ :=
  let f := ⌊x⌋
  let r := x - (f : ℚ)
  if r < 1 / 2 then f
  else if 1 / 2 < r then f + 1
  else if f % 2 = 0 then f else f + 1

/-- Python round(x, 2) on our float model. -/
def pyRound2 : PFloat → PFloat
  | .nan => .nan
  | .val q => .val ((roundHalfEven (q * 100) : ℚ) / 100)

/-- One average entry of Dataset.get_statistics_summary: rounded to two
decimals when truthy, None otherwise (note the source tests truthiness, not
null-ness). -/
def summaryAvg (x : Option PFloat) : Option PFloat :=
  if pyTruthy x then x.map pyRound2 else none

/-- Dataset.get_statistics_summary from models.py, reusing the StoredDataset
shape for its dictionary. -/
def get_statistics_summary (d : StoredDataset) : StoredDataset :=
  { d with
    avg_flowrate := summaryAvg d.avg_flowrate
    avg_pressure := summaryAvg d.avg_pressure
    avg_temperature := summaryAvg d.avg_temperature }

/-- DatasetViewSet.retrieve: the found dataset, or the 404 error. -/
def retrieveDs (store : Store) (u pk : ℕ) : Resp :=
  match dbGet store u pk with
  | some d => .okDataset 200 d
  | none => .err 404 "Dataset not found"

/-- DatasetViewSet.destroy: delete the row and its file, or the 404 error. -/
def destroyDs (store : Store) (u pk : ℕ) : Store × Resp :=
  match dbGet store u pk with
  | some d =>
    (⟨store.datasets.filter (fun e => !(e.id == d.id))⟩,
      .okMessage 204 "Dataset deleted successfully")
  | none => (store, .err 404 "Dataset not found")

/-- DatasetViewSet.statistics: the stored summary, or the 404 error. -/
def statisticsDs (store : Store) (u pk : ℕ) : Resp :=
  match dbGet store u pk with
  | some d => .okStats 200 (get_statistics_summary d)
  | none => .err 404 "Dataset not found"

/-- Zero-padding of a digit string to a fixed width. -/
def padZeros (nd : ℕ) (s : String) : String :=
  String.mk (List.replicate (nd - s.length) '0') ++ s

/-- Fixed-point rendering of a rational with nd decimal digits, rounding
half to even: the semantics of a Python format specifier on our exact float
model. -/
def fmtFixed (nd : ℕ) (q : ℚ) : String :=
  let s := roundHalfEven (q * (10 : ℚ) ^ nd)
  let n := s.natAbs
  let sign := if s < 0 then "-" else ""
  sign ++ toString (n / 10 ^ nd) ++ "." ++ padZeros nd (toString (n % 10 ^ nd))

/-- A Python float rendered with two decimals (NaN renders as nan). -/
def pfmt2 : PFloat → String
  | .nan => "nan"
  | .val q => fmtFixed 2 q

/-- One average cell of the summary-statistics table of generate_pdf_report:
the two-decimal value when the stored average is truthy, the literal string
N/A otherwise (the source tests truthiness, not null-ness). -/
def statCellStr (x : Option PFloat) : String :=
  match x with
  | none => "N/A"
  | some v => if pyTruthy (some v) then pfmt2 v else "N/A"

/-- The stats_data table of generate_pdf_report. -/
def statsTableRows (d : StoredDataset) : List (List String) :=
  [["Metric", "Value"],
   ["Total Equipment Count", toString d.total_equipment],
   ["Average Flowrate", statCellStr d.avg_flowrate],
   ["Average Pressure", statCellStr d.avg_pressure],
   ["Average Temperature", statCellStr d.avg_temperature]]

/-- Python str of a cell as it reaches the report (only string-typed cells
occur in the claims; the numeric rendering is schematic). -/
def cellToStr : Cell → String
  | .na => "nan"
  | .num q => (if q.den = 1 then toString q.num else toString q.num ++ "/" ++ toString q.den)
  | .str s => s

/-- The percentage of one distribution row: count over total times 100, and
0 when the total is 0 (the division-by-zero guard of generate_pdf_report). -/
def pct (count total : ℕ) : ℚ :=
  if 0 < total then (count : ℚ) / (total : ℚ) * 100 else 0

/-- One row of the dist_data table of generate_pdf_report. -/
def distRow (total : ℕ) (p : Cell × ℕ) : List String :=
  [cellToStr p.1, toString p.2, fmtFixed 1 (pct p.2 total) ++ "%"]

/-- The dist_data table of generate_pdf_report: a header row, then one row
per type sorted by count descending, with the percentage of the total. -/
def distTableRows (dist : List (Cell × ℕ)) : List (List String) :=
  let total := (dist.map Prod.snd).sum
  ["Equipment Type", "Count", "Percentage"] :: (sortCountDesc dist).map (distRow total)

/-- Example upload content whose header uses the space naming variant. -/
def spaceVariantDF : DF :=
  ⟨[("Equipment Name", [Cell.str "P1"]), ("Type", [Cell.str "Pump"]),
    ("Flowrate", [Cell.num 1]), ("Pressure", [Cell.num 2]),
    ("Temperature", [Cell.num 3])], 1⟩

/-- The same upload content with the underscore naming variant. -/
def underscoreVariantDF : DF :=
  ⟨[("Equipment_Name", [Cell.str "P1"]), ("Type", [Cell.str "Pump"]),
    ("Flowrate", [Cell.num 1]), ("Pressure", [Cell.num 2]),
    ("Temperature", [Cell.num 3])], 1⟩

/-- Example store with five datasets owned by user 0, timestamps 1 to 5. -/
def exampleStore5 : Store :=
  ⟨[⟨1, 0, "a", 1, [], 0, none, none, none, []⟩,
    ⟨2, 0, "b", 2, [], 0, none, none, none, []⟩,
    ⟨3, 0, "c", 3, [], 0, none, none, none, []⟩,
    ⟨4, 0, "d", 4, [], 0, none, none, none, []⟩,
    ⟨5, 0, "e", 5, [], 0, none, none, none, []⟩]⟩

/-- Example sixth dataset for user 0, timestamp 6. -/
def exampleD6 : StoredDataset := ⟨6, 0, "f", 6, [], 0, none, none, none, []⟩

section Lemmas

/-- The integer comparison of ratioExceeded agrees with the percentage
formula of the source whenever the DataFrame has at least one row. -/
theorem ratioExceeded_iff (nNA nRows : ℕ) (h : 0 < nRows) :
    ratioExceeded nNA nRows = true ↔ 50 < (nNA : ℚ) / (nRows : ℚ) * 100 := by
  unfold ratioExceeded
  rw [decide_eq_true_iff]
  have hr : (0 : ℚ) < (nRows : ℚ) := by exact_mod_cast h
  rw [div_mul_eq_mul_div, lt_div_iff₀ hr]
  constructor
  · intro hlt
    have : ((50 * nRows : ℕ) : ℚ) < ((100 * nNA : ℕ) : ℚ) := by exact_mod_cast hlt
    push_cast at this
    linarith
  · intro hlt
    have : ((50 * nRows : ℕ) : ℚ) < ((100 * nNA : ℕ) : ℚ) := by push_cast; linarith
    exact_mod_cast this

/-- A chained per-column check passes exactly when every column passes. -/
theorem firstError_eq_none_iff (f : String → Option String) (cs : List String) :
    firstError f cs = none ↔ ∀ c ∈ cs, f c = none := by
  induction cs with
  | nil => simp [firstError]
  | cons c cs ih =>
    cases h : f c with
    | some m => simp [firstError, h]
    | none => simp [firstError, h, ih]

theorem DF.nrows_update (df : DF) (c : String) (f : List Cell → List Cell) :
    (df.update c f).nrows = df.nrows := rfl

theorem DF.columns_update (df : DF) (c : String) (f : List Cell → List Cell) :
    (df.update c f).columns = df.columns := by
  unfold DF.update DF.columns
  simp only [List.map_map]
  refine List.map_congr_left (fun p _ => ?_)
  by_cases h : p.1 = c <;> simp [h, Function.comp]

theorem lookupCol_map_update_self (cols : List (String × List Cell)) (c : String)
    (f : List Cell → List Cell) (hc : c ∈ cols.map Prod.fst) :
    lookupCol (cols.map (fun p => if p.1 = c then (p.1, f p.2) else p)) c =
      f (lookupCol cols c) := by
  induction cols with
  | nil => simp at hc
  | cons p ps ih =>
    by_cases hp : p.1 = c
    · simp [lookupCol, hp]
    · have hc2 : c ∈ ps.map Prod.fst := by
        rcases (List.mem_cons.mp hc) with h1 | h2
        · exact absurd h1.symm hp
        · exact h2
      simp [lookupCol, hp, ih hc2]

theorem lookupCol_map_update_ne (cols : List (String × List Cell)) (c c2 : String)
    (f : List Cell → List Cell) (hne : c2 ≠ c) :
    lookupCol (cols.map (fun p => if p.1 = c then (p.1, f p.2) else p)) c2 =
      lookupCol cols c2 := by
  induction cols with
  | nil => rfl
  | cons p ps ih =>
    by_cases hp : p.1 = c
    · have hp2 : (p.1 == c2) = false := by
        rw [hp]
        exact beq_eq_false_iff_ne.mpr (fun h => hne h.symm)
      simp only [List.map_cons, if_pos hp, lookupCol, hp2, Bool.false_eq_true,
        if_false, ih]
    · simp only [List.map_cons, if_neg hp, lookupCol, ih]

theorem DF.get_update_self (df : DF) (c : String) (f : List Cell → List Cell)
    (hc : c ∈ df.columns) :
    (df.update c f).get c = f (df.get c) :=
  lookupCol_map_update_self df.cols c f hc

theorem DF.get_update_ne (df : DF) (c c2 : String) (f : List Cell → List Cell)
    (hne : c2 ≠ c) :
    (df.update c f).get c2 = df.get c2 :=
  lookupCol_map_update_ne df.cols c c2 f hne

end Lemmas


section ParseLemmas

/-- parse_csv_file unfolded to its five column updates. -/
theorem parse_csv_file_eq (df0 : DF) :
    parse_csv_file df0 =
      (((((stripCols df0).update "Flowrate" fillWithMean).update "Pressure"
        fillWithMean).update "Temperature" fillWithMean).update "Equipment_Name"
        (List.map (fillNA (.str "Unknown")))).update "Type"
        (List.map (fillNA (.str "Unknown"))) := rfl

theorem parse_nrows (df0 : DF) : (parse_csv_file df0).nrows = df0.nrows := rfl

theorem parse_columns (df0 : DF) :
    (parse_csv_file df0).columns = (stripCols df0).columns := by
  rw [parse_csv_file_eq, DF.columns_update, DF.columns_update, DF.columns_update,
    DF.columns_update, DF.columns_update]

theorem parse_get_numeric (df0 : DF) (c : String) (hc : c ∈ NUMERIC_COLUMNS)
    (hcol : c ∈ (stripCols df0).columns) :
    (parse_csv_file df0).get c = fillWithMean ((stripCols df0).get c) := by
  rw [parse_csv_file_eq]
  have hc3 : c = "Flowrate" ∨ c = "Pressure" ∨ c = "Temperature" := by
    simpa [NUMERIC_COLUMNS] using hc
  rcases hc3 with h | h | h <;> subst h
  · rw [DF.get_update_ne _ _ _ _ (by decide), DF.get_update_ne _ _ _ _ (by decide),
      DF.get_update_ne _ _ _ _ (by decide), DF.get_update_ne _ _ _ _ (by decide),
      DF.get_update_self _ _ _ hcol]
  · rw [DF.get_update_ne _ _ _ _ (by decide), DF.get_update_ne _ _ _ _ (by decide),
      DF.get_update_ne _ _ _ _ (by decide),
      DF.get_update_self _ _ _ (by rw [DF.columns_update]; exact hcol),
      DF.get_update_ne _ _ _ _ (by decide)]
  · rw [DF.get_update_ne _ _ _ _ (by decide), DF.get_update_ne _ _ _ _ (by decide),
      DF.get_update_self _ _ _
        (by rw [DF.columns_update, DF.columns_update]; exact hcol),
      DF.get_update_ne _ _ _ _ (by decide), DF.get_update_ne _ _ _ _ (by decide)]

theorem parse_get_type (df0 : DF) (hcol : "Type" ∈ (stripCols df0).columns) :
    (parse_csv_file df0).get "Type" =
      ((stripCols df0).get "Type").map (fillNA (.str "Unknown")) := by
  rw [parse_csv_file_eq]
  rw [DF.get_update_self _ _ _
    (by rw [DF.columns_update, DF.columns_update, DF.columns_update,
      DF.columns_update]; exact hcol)]
  rw [DF.get_update_ne _ _ _ _ (by decide), DF.get_update_ne _ _ _ _ (by decide),
    DF.get_update_ne _ _ _ _ (by decide), DF.get_update_ne _ _ _ _ (by decide)]

/-- seriesMean written as an explicit conditional. -/
theorem seriesMean_eq (cells : List Cell) :
    seriesMean cells =
      if (knownVals cells).length = 0 then none
      else some ((knownVals cells).sum / ((knownVals cells).length : ℚ)) := rfl

/-- Pointwise description of mean imputation on one column. -/
theorem fillWithMean_getElem (cells : List Cell) (i : ℕ) :
    (fillWithMean cells)[i]? =
      ((cells.map toNumericCoerce)[i]?).map (fun x =>
        match x with
        | Cell.na =>
          if (knownVals (cells.map toNumericCoerce)).length = 0 then Cell.na
          else Cell.num ((knownVals (cells.map toNumericCoerce)).sum /
            ((knownVals (cells.map toNumericCoerce)).length : ℚ))
        | v => v) := by
  show (match seriesMean (cells.map toNumericCoerce) with
    | none => cells.map toNumericCoerce
    | some m => (cells.map toNumericCoerce).map (fillNA (Cell.num m)))[i]? = _
  by_cases h : (knownVals (cells.map toNumericCoerce)).length = 0
  · rw [seriesMean_eq, if_pos h]
    show (cells.map toNumericCoerce)[i]? = _
    cases hx : (cells.map toNumericCoerce)[i]? with
    | none => simp [hx]
    | some x =>
      cases x with
      | na =>
        rw [if_pos h]
        rfl
      | num q => rfl
      | str s => rfl
  · rw [seriesMean_eq, if_neg h]
    show ((cells.map toNumericCoerce).map (fillNA (Cell.num
      ((knownVals (cells.map toNumericCoerce)).sum /
        ((knownVals (cells.map toNumericCoerce)).length : ℚ)))))[i]? = _
    rw [List.getElem?_map]
    cases hx : (cells.map toNumericCoerce)[i]? with
    | none => simp [hx]
    | some x =>
      cases x with
      | na =>
        rw [if_neg h]
        rfl
      | num q => rfl
      | str s => rfl

end ParseLemmas

/-- C2: the validator is documented (and specified) to accept the space
naming variant of the required columns, but a well-formed CSV using the
space variant is rejected: the missing-ratio loop indexes the DataFrame by
the underscore names, raising a KeyError that the generic handler turns
into a validation error. The same content with underscore names passes. -/
theorem c2_space_variant_rejected :
    validate_file "equipment.csv" 120 (some spaceVariantDF) =
      some "Error processing CSV file: KeyError: Equipment_Name" ∧
    validate_file "equipment.csv" 120 (some underscoreVariantDF) = none := by
  constructor
  · decide
  · decide

/-- C10: given the three numeric columns are present (which the preceding
required-column check guarantees at this point of the validator), the
numeric well-formedness check passes exactly when those columns hold no
non-numeric string entry; missing cells are NaN after parsing and do not
fail the check. -/
theorem c10_numeric_check (df : DF)
    (h : ∀ c ∈ NUMERIC_COLUMNS, c ∈ df.columns) :
    firstError (numericColError df) NUMERIC_COLUMNS = none ↔
      ∀ c ∈ NUMERIC_COLUMNS, ∀ x ∈ df.get c, x.isStr = false := by
  rw [firstError_eq_none_iff]
  have key : ∀ c ∈ NUMERIC_COLUMNS,
      (numericColError df c = none ↔ ∀ x ∈ df.get c, x.isStr = false) := by
    intro c hc
    rw [numericColError, if_pos (h c hc)]
    by_cases ha : (df.get c).any Cell.isStr
    · rw [if_pos ha]
      obtain ⟨x, hx, hxs⟩ := List.any_eq_true.mp ha
      constructor
      · intro hcontra
        exact absurd hcontra (by simp)
      · intro hall
        rw [hall x hx] at hxs
        cases hxs
    · rw [if_neg ha]
      constructor
      · intro _ x hx
        by_contra hxs
        exact ha (List.any_eq_true.mpr ⟨x, hx, by simpa using hxs⟩)
      · intro _
        rfl
  constructor
  · intro H c hc
    exact (key c hc).mp (H c hc)
  · intro H c hc
    exact (key c hc).mpr (H c hc)

/-- C10 witness: a CSV whose numeric columns hold numbers and blanks only
passes the numeric check. -/
theorem c10_numeric_check_witness :
    (∀ c ∈ NUMERIC_COLUMNS, c ∈ (⟨[("Flowrate", [Cell.num 1, Cell.na]),
      ("Pressure", [Cell.na, Cell.na]), ("Temperature", [Cell.num 3, Cell.num 4])],
      2⟩ : DF).columns) ∧
    firstError (numericColError ⟨[("Flowrate", [Cell.num 1, Cell.na]),
      ("Pressure", [Cell.na, Cell.na]), ("Temperature", [Cell.num 3, Cell.num 4])],
      2⟩) NUMERIC_COLUMNS = none :=
  ⟨by decide,
    (c10_numeric_check _ (by decide)).mpr (by decide)⟩

section AvgLemmas

/-- Specification of one average entry of calculate_statistics: Python None
exactly when the column is absent; the exact mean over the known values when
some value is known; NaN when the column is present but no value is known
(in particular with zero rows). -/
theorem statAvg_spec (df : DF) (c : String) :
    (statAvg df c = none ↔ c ∉ df.columns) ∧
    (c ∈ df.columns → knownVals (df.get c) ≠ [] →
      statAvg df c = some (PFloat.val ((knownVals (df.get c)).sum /
        ((knownVals (df.get c)).length : ℚ)))) ∧
    (c ∈ df.columns → knownVals (df.get c) = [] →
      statAvg df c = some PFloat.nan) := by
  unfold statAvg seriesMeanF
  by_cases hmem : c ∈ df.columns
  · rw [if_pos hmem]
    refine ⟨by simp [hmem], ?_, ?_⟩
    · intro _ hk
      rw [seriesMean_eq, if_neg (fun h0 => hk (List.length_eq_zero.mp h0))]
    · intro _ hk
      rw [seriesMean_eq, if_pos (by rw [hk]; rfl)]
  · rw [if_neg hmem]
    exact ⟨by simp [hmem], fun h => absurd h hmem, fun h => absurd h hmem⟩

end AvgLemmas

/-- C4 counterexample: on a DataFrame with a Flowrate column and zero
records, calculate_statistics stores the float NaN for avg_flowrate, not the
null the claim requires. -/
theorem c4_counterexample :
    (calculate_statistics ⟨[("Flowrate", [])], 0⟩).avg_flowrate = some PFloat.nan ∧
    (some PFloat.nan : Option PFloat) ≠ none ∧
    (calculate_statistics ⟨[("Flowrate", [])], 0⟩).total_equipment = 0 := by
  refine ⟨by decide, by decide, by decide⟩

/-- C4 amended: total_count is the number of records; avg_X is null exactly
when column X is absent; when X is present, avg_X is the arithmetic mean of
X over the records with a known value, and it is the float NaN - not null -
when no record has a known value (in particular when there are zero
records). -/
theorem c4_statistics_spec (df : DF) :
    (calculate_statistics df).total_equipment = df.nrows ∧
    (((calculate_statistics df).avg_flowrate = none ↔ "Flowrate" ∉ df.columns) ∧
      ("Flowrate" ∈ df.columns → knownVals (df.get "Flowrate") ≠ [] →
        (calculate_statistics df).avg_flowrate =
          some (PFloat.val ((knownVals (df.get "Flowrate")).sum /
            ((knownVals (df.get "Flowrate")).length : ℚ)))) ∧
      ("Flowrate" ∈ df.columns → knownVals (df.get "Flowrate") = [] →
        (calculate_statistics df).avg_flowrate = some PFloat.nan)) ∧
    (((calculate_statistics df).avg_pressure = none ↔ "Pressure" ∉ df.columns) ∧
      ("Pressure" ∈ df.columns → knownVals (df.get "Pressure") ≠ [] →
        (calculate_statistics df).avg_pressure =
          some (PFloat.val ((knownVals (df.get "Pressure")).sum /
            ((knownVals (df.get "Pressure")).length : ℚ)))) ∧
      ("Pressure" ∈ df.columns → knownVals (df.get "Pressure") = [] →
        (calculate_statistics df).avg_pressure = some PFloat.nan)) ∧
    (((calculate_statistics df).avg_temperature = none ↔
        "Temperature" ∉ df.columns) ∧
      ("Temperature" ∈ df.columns → knownVals (df.get "Temperature") ≠ [] →
        (calculate_statistics df).avg_temperature =
          some (PFloat.val ((knownVals (df.get "Temperature")).sum /
            ((knownVals (df.get "Temperature")).length : ℚ)))) ∧
      ("Temperature" ∈ df.columns → knownVals (df.get "Temperature") = [] →
        (calculate_statistics df).avg_temperature = some PFloat.nan)) :=
  ⟨rfl, statAvg_spec df "Flowrate", statAvg_spec df "Pressure",
    statAvg_spec df "Temperature"⟩

/-- C4 witness: on a one-row DataFrame with Flowrate known and Pressure
absent, the amended statement yields the exact mean and the null. -/
theorem c4_statistics_spec_witness :
    (calculate_statistics ⟨[("Flowrate", [Cell.num 7])], 1⟩).avg_flowrate =
      some (PFloat.val ((knownVals ((⟨[("Flowrate", [Cell.num 7])], 1⟩ : DF).get
        "Flowrate")).sum /
        ((knownVals ((⟨[("Flowrate", [Cell.num 7])], 1⟩ : DF).get
          "Flowrate")).length : ℚ))) ∧
    ((calculate_statistics ⟨[("Flowrate", [Cell.num 7])], 1⟩).avg_pressure =
      none ↔ "Pressure" ∉ (⟨[("Flowrate", [Cell.num 7])], 1⟩ : DF).columns) :=
  ⟨(c4_statistics_spec ⟨[("Flowrate", [Cell.num 7])], 1⟩).2.1.2.1 (by decide)
      (by decide),
    (c4_statistics_spec ⟨[("Flowrate", [Cell.num 7])], 1⟩).2.2.1.1⟩

section FormatLemmas

/-- A fixed-point rendering always contains a dot, so it is never the
literal string N/A. -/
theorem fmtFixed_ne_NA (nd : ℕ) (q : ℚ) : fmtFixed nd q ≠ "N/A" := by
  intro heq
  have hdot : ('.' : Char) ∈ (fmtFixed nd q).data := by
    show ('.' : Char) ∈ (((if roundHalfEven (q * (10 : ℚ) ^ nd) < 0 then "-" else "") ++
      toString ((roundHalfEven (q * (10 : ℚ) ^ nd)).natAbs / 10 ^ nd) ++ "." ++
      padZeros nd (toString ((roundHalfEven (q * (10 : ℚ) ^ nd)).natAbs % 10 ^ nd))).data)
    rw [show (((if roundHalfEven (q * (10 : ℚ) ^ nd) < 0 then "-" else "") ++
      toString ((roundHalfEven (q * (10 : ℚ) ^ nd)).natAbs / 10 ^ nd) ++ "." ++
      padZeros nd (toString ((roundHalfEven (q * (10 : ℚ) ^ nd)).natAbs % 10 ^ nd))).data) =
      (((if roundHalfEven (q * (10 : ℚ) ^ nd) < 0 then "-" else "") ++
        toString ((roundHalfEven (q * (10 : ℚ) ^ nd)).natAbs / 10 ^ nd)).data ++
        ['.']) ++ (padZeros nd
        (toString ((roundHalfEven (q * (10 : ℚ) ^ nd)).natAbs % 10 ^ nd))).data from rfl]
    simp
  rw [heq] at hdot
  exact absurd hdot (by decide)

/-- One average cell of the report statistics table is the literal N/A
exactly when the stored average is null or zero. -/
theorem statCellStr_eq_NA_iff (x : Option PFloat) :
    statCellStr x = "N/A" ↔ (x = none ∨ x = some (PFloat.val 0)) := by
  cases x with
  | none => simp [statCellStr]
  | some v =>
    cases v with
    | nan =>
      constructor
      · intro h
        exact absurd h (by decide)
      · intro h
        rcases h with h | h <;> cases h
    | val q =>
      by_cases hq : q = 0
      · subst hq
        constructor
        · intro _
          right
          rfl
        · intro _
          decide
      · constructor
        · intro h
          rw [show statCellStr (some (PFloat.val q)) =
            (if !(q == 0) then fmtFixed 2 q else "N/A") from rfl] at h
          rw [if_pos (by simpa using hq)] at h
          exact absurd h (fmtFixed_ne_NA 2 q)
        · intro h
          rcases h with h | h
          · cases h
          · rw [Option.some_inj] at h
            cases h
            exact absurd rfl hq

end FormatLemmas

/-- C6 counterexample: a dataset whose stored average flowrate is exactly
0.0 (not null) still renders the literal N/A in the statistics table,
because the source tests Python truthiness rather than null-ness. -/
theorem c6_counterexample :
    ((statsTableRows ⟨1, 0, "d.csv", 0, [], 0, some (PFloat.val 0), none, none,
      []⟩).getD 2 []).getD 1 "" = "N/A" ∧
    (⟨1, 0, "d.csv", 0, [], 0, some (PFloat.val 0), none, none,
      []⟩ : StoredDataset).avg_flowrate ≠ none := by
  exact ⟨by decide, by decide⟩

/-- C6 amended: each of the three average rows of the report statistics
table shows the literal N/A exactly when the stored average is null or
equal to 0.0, and shows the rendered numeric value otherwise. -/
theorem c6_stats_table_NA (d : StoredDataset) :
    (((statsTableRows d).getD 2 []).getD 1 "" = "N/A" ↔
      (d.avg_flowrate = none ∨ d.avg_flowrate = some (PFloat.val 0))) ∧
    (((statsTableRows d).getD 3 []).getD 1 "" = "N/A" ↔
      (d.avg_pressure = none ∨ d.avg_pressure = some (PFloat.val 0))) ∧
    (((statsTableRows d).getD 4 []).getD 1 "" = "N/A" ↔
      (d.avg_temperature = none ∨ d.avg_temperature = some (PFloat.val 0))) := by
  refine ⟨?_, ?_, ?_⟩ <;>
    · show statCellStr _ = "N/A" ↔ _
      exact statCellStr_eq_NA_iff _

/-- C3: for every numeric column present after column-name stripping, the
parser replaces each missing or unparsable cell by the arithmetic mean of
the column over the rows with a known value and keeps known values
unchanged; in particular the column [10, missing, 30] parses to [10, 20, 30]
whose mean is 20, and an all-missing column stays all-missing with an
undefined (NaN) mean. -/
theorem c3_mean_imputation (df0 : DF) (c : String) (hc : c ∈ NUMERIC_COLUMNS)
    (hcol : c ∈ (stripCols df0).columns) :
    (∀ i : ℕ, ((parse_csv_file df0).get c)[i]? =
      ((((stripCols df0).get c).map toNumericCoerce)[i]?).map (fun x =>
        match x with
        | Cell.na =>
          if (knownVals (((stripCols df0).get c).map toNumericCoerce)).length = 0
          then Cell.na
          else Cell.num
            ((knownVals (((stripCols df0).get c).map toNumericCoerce)).sum /
              ((knownVals (((stripCols df0).get c).map toNumericCoerce)).length : ℚ))
        | v => v)) ∧
    (parse_csv_file ⟨[("Flowrate", [Cell.num 10, Cell.na, Cell.num 30])], 3⟩).get
      "Flowrate" = [Cell.num 10, Cell.num 20, Cell.num 30] ∧
    seriesMean ((parse_csv_file ⟨[("Flowrate",
      [Cell.num 10, Cell.na, Cell.num 30])], 3⟩).get "Flowrate") = some 20 ∧
    (parse_csv_file ⟨[("Pressure", [Cell.na, Cell.na])], 2⟩).get "Pressure" =
      [Cell.na, Cell.na] ∧
    seriesMean ((parse_csv_file ⟨[("Pressure", [Cell.na, Cell.na])], 2⟩).get
      "Pressure") = none := by
  have h20 : seriesMean (List.map toNumericCoerce
      [Cell.num 10, Cell.na, Cell.num 30]) = some 20 := by
    unfold seriesMean
    rw [show knownVals (List.map toNumericCoerce
      [Cell.num 10, Cell.na, Cell.num 30]) = [10, 30] from rfl]
    norm_num
  have hconc : (parse_csv_file ⟨[("Flowrate",
      [Cell.num 10, Cell.na, Cell.num 30])], 3⟩).get "Flowrate" =
      [Cell.num 10, Cell.num 20, Cell.num 30] := by
    rw [parse_get_numeric _ _ (by decide) (by decide)]
    rw [show (stripCols ⟨[("Flowrate", [Cell.num 10, Cell.na, Cell.num 30])],
      3⟩).get "Flowrate" = [Cell.num 10, Cell.na, Cell.num 30] from rfl]
    unfold fillWithMean
    simp only [h20]
    rfl
  refine ⟨?_, hconc, ?_, ?_, ?_⟩
  · intro i
    rw [parse_get_numeric df0 c hc hcol]
    exact fillWithMean_getElem _ i
  · rw [hconc]
    unfold seriesMean
    rw [show knownVals [Cell.num 10, Cell.num 20, Cell.num 30] =
      [10, 20, 30] from rfl]
    norm_num
  · rw [parse_get_numeric _ _ (by decide) (by decide)]
    rfl
  · rw [parse_get_numeric _ _ (by decide) (by decide)]
    rfl

/-- C3 witness: the pointwise imputation statement instantiated at the
concrete column [10, missing, 30]. -/
theorem c3_mean_imputation_witness :
    ("Flowrate" ∈ NUMERIC_COLUMNS ∧ "Flowrate" ∈
      (stripCols ⟨[("Flowrate", [Cell.num 10, Cell.na, Cell.num 30])],
        3⟩).columns) ∧
    (∀ i : ℕ, ((parse_csv_file ⟨[("Flowrate",
        [Cell.num 10, Cell.na, Cell.num 30])], 3⟩).get "Flowrate")[i]? =
      ((((stripCols ⟨[("Flowrate", [Cell.num 10, Cell.na, Cell.num 30])],
          3⟩).get "Flowrate").map toNumericCoerce)[i]?).map (fun x =>
        match x with
        | Cell.na =>
          if (knownVals (((stripCols ⟨[("Flowrate",
            [Cell.num 10, Cell.na, Cell.num 30])], 3⟩).get
            "Flowrate").map toNumericCoerce)).length = 0
          then Cell.na
          else Cell.num
            ((knownVals (((stripCols ⟨[("Flowrate",
              [Cell.num 10, Cell.na, Cell.num 30])], 3⟩).get
              "Flowrate").map toNumericCoerce)).sum /
              ((knownVals (((stripCols ⟨[("Flowrate",
                [Cell.num 10, Cell.na, Cell.num 30])], 3⟩).get
                "Flowrate").map toNumericCoerce)).length : ℚ))
        | v => v)) :=
  ⟨⟨by decide, by decide⟩,
    (c3_mean_imputation ⟨[("Flowrate", [Cell.num 10, Cell.na, Cell.num 30])], 3⟩
      "Flowrate" (by decide) (by decide)).1⟩

/-- C7: for a non-empty distribution the report table has one row per type,
sorted by count descending, each percentage being count over total times
100 rendered to one decimal (0.0 for every row when the total is 0), and on
the distribution Pump 3, Valve 1 the rows are exactly (Pump, 3, 75.0) and
(Valve, 1, 25.0) with percent signs. -/
theorem c7_dist_table (dist : List (Cell × ℕ)) (_hne : dist ≠ []) :
    ((distTableRows dist).drop 1 =
      (sortCountDesc dist).map (distRow ((dist.map Prod.snd).sum))) ∧
    List.Perm (sortCountDesc dist) dist ∧
    List.Sorted countGE (sortCountDesc dist) ∧
    ((distTableRows dist).drop 1).length = dist.length ∧
    ((dist.map Prod.snd).sum = 0 → ∀ p ∈ sortCountDesc dist,
      distRow ((dist.map Prod.snd).sum) p =
        [cellToStr p.1, toString p.2, "0.0%"]) ∧
    distTableRows [(Cell.str "Pump", 3), (Cell.str "Valve", 1)] =
      [["Equipment Type", "Count", "Percentage"],
       ["Pump", "3", "75.0%"], ["Valve", "1", "25.0%"]] := by
  have hfmt0 : fmtFixed 1 0 = "0.0" := by
    norm_num [fmtFixed, roundHalfEven, padZeros]
    decide
  refine ⟨rfl, List.perm_insertionSort countGE dist,
    List.sorted_insertionSort countGE dist, ?_, ?_, ?_⟩
  · show ((sortCountDesc dist).map (distRow ((dist.map Prod.snd).sum))).length =
      dist.length
    rw [List.length_map]
    exact (List.perm_insertionSort countGE dist).length_eq
  · intro h0 p _
    unfold distRow
    rw [h0, show pct p.2 0 = 0 from rfl, hfmt0,
      show ("0.0" ++ "%" : String) = "0.0%" from rfl]
  · have h75 : fmtFixed 1 (pct 3 4) = "75.0" := by
      rw [show pct 3 4 = (3 : ℚ) / 4 * 100 from by norm_num [pct]]
      norm_num [fmtFixed, roundHalfEven, padZeros]
      decide
    have h25 : fmtFixed 1 (pct 1 4) = "25.0" := by
      rw [show pct 1 4 = (1 : ℚ) / 4 * 100 from by norm_num [pct]]
      norm_num [fmtFixed, roundHalfEven, padZeros]
      decide
    show ["Equipment Type", "Count", "Percentage"] ::
        (sortCountDesc [(Cell.str "Pump", 3), (Cell.str "Valve", 1)]).map
          (distRow (([(Cell.str "Pump", 3), (Cell.str "Valve", 1)].map
            Prod.snd).sum)) = _
    rw [show sortCountDesc [(Cell.str "Pump", 3), (Cell.str "Valve", 1)] =
      [(Cell.str "Pump", 3), (Cell.str "Valve", 1)] from by decide]
    rw [show ([(Cell.str "Pump", 3), (Cell.str "Valve", 1)].map Prod.snd).sum =
      4 from rfl]
    rw [show [(Cell.str "Pump", 3), (Cell.str "Valve", 1)].map (distRow 4) =
      [["Pump", "3", fmtFixed 1 (pct 3 4) ++ "%"],
       ["Valve", "1", fmtFixed 1 (pct 1 4) ++ "%"]] from rfl]
    rw [h75, h25, show ("75.0" ++ "%" : String) = "75.0%" from rfl,
      show ("25.0" ++ "%" : String) = "25.0%" from rfl]

/-- C7 witness: the table statement instantiated at the distribution
Pump 3, Valve 1. -/
theorem c7_dist_table_witness :
    ([(Cell.str "Pump", 3), (Cell.str "Valve", 1)] : List (Cell × ℕ)) ≠ [] ∧
    distTableRows [(Cell.str "Pump", 3), (Cell.str "Valve", 1)] =
      [["Equipment Type", "Count", "Percentage"],
       ["Pump", "3", "75.0%"], ["Valve", "1", "25.0%"]] :=
  ⟨by decide,
    (c7_dist_table [(Cell.str "Pump", 3), (Cell.str "Valve", 1)]
      (by decide)).2.2.2.2.2⟩

section CountLemmas

theorem countP_add_countP_not (p : Cell → Bool) (l : List Cell) :
    l.countP p + l.countP (fun a => !(p a)) = l.length := by
  induction l with
  | nil => rfl
  | cons a l ih =>
    rw [List.countP_cons, List.countP_cons, List.length_cons]
    cases hpa : p a <;> simp [hpa] <;> omega

theorem countKey_filter_ne (l : List Cell) (c k : Cell) (h : k ≠ c) :
    countKey (l.filter (fun x => !(x == c))) k = countKey l k := by
  unfold countKey
  rw [List.countP_filter]
  apply List.countP_congr
  intro x _
  constructor
  · intro hx
    exact (Bool.and_eq_true _ _).mp hx |>.1
  · intro hx
    have hxk : x = k := by simpa using hx
    subst hxk
    have : (x == c) = false := by
      simpa using h
    simp [this]

theorem mem_distinctAux (fuel : ℕ) (l : List Cell) (k : Cell)
    (h : k ∈ distinctAux fuel l) : k ∈ l := by
  induction fuel generalizing l with
  | zero => cases h
  | succ n ih =>
    cases l with
    | nil => cases h
    | cons c rest =>
      rw [distinctAux] at h
      rcases List.mem_cons.mp h with h1 | h2
      · exact h1 ▸ List.mem_cons_self _ _
      · exact List.mem_cons_of_mem _ (List.mem_of_mem_filter (ih _ h2))

theorem distinctAux_counts_sum (fuel : ℕ) :
    ∀ l : List Cell, l.length ≤ fuel →
      ((distinctAux fuel l).map (fun k => countKey l k)).sum = l.length := by
  induction fuel with
  | zero =>
    intro l hl
    have hnil : l = [] := List.length_eq_zero.mp (Nat.le_zero.mp hl)
    subst hnil
    rfl
  | succ n ih =>
    intro l hl
    cases l with
    | nil => rfl
    | cons c rest =>
      rw [distinctAux, List.map_cons, List.sum_cons]
      have hrest : (rest.filter (fun x => !(x == c))).length ≤ n :=
        le_trans (List.length_filter_le _ _) (Nat.le_of_succ_le_succ hl)
      have htail : ((distinctAux n (rest.filter (fun x => !(x == c)))).map
          (fun k => countKey (c :: rest) k)).sum =
          ((distinctAux n (rest.filter (fun x => !(x == c)))).map
          (fun k => countKey (rest.filter (fun x => !(x == c))) k)).sum := by
        refine congrArg _ (List.map_congr_left ?_)
        intro k hk
        have hkmem : k ∈ rest.filter (fun x => !(x == c)) :=
          mem_distinctAux _ _ _ hk
        have hkc : k ≠ c := by
          have := List.of_mem_filter hkmem
          simpa using this
        have hck : (c == k) = false := by
          simpa using fun hcontra => hkc hcontra.symm
        rw [show countKey (c :: rest) k = List.countP (fun x => x == k) rest +
          if (c == k) = true then 1 else 0 from List.countP_cons _ _ _, hck]
        simp only [Bool.false_eq_true, if_false, Nat.add_zero]
        exact (countKey_filter_ne rest c k hkc).symm
      rw [htail, ih _ hrest]
      have hcc : countKey (c :: rest) c = countKey rest c + 1 := by
        rw [show countKey (c :: rest) c = List.countP (fun x => x == c) rest +
          if (c == c) = true then 1 else 0 from List.countP_cons _ _ _]
        simp [countKey]
      have hsplit : countKey rest c + (rest.filter (fun x => !(x == c))).length =
          rest.length := by
        rw [show (rest.filter (fun x => !(x == c))).length =
          rest.countP (fun x => !(x == c)) from
            (List.countP_eq_length_filter _ _).symm]
        exact countP_add_countP_not (fun x => x == c) rest
      rw [hcc, List.length_cons]
      omega

theorem valueCounts_sum (l : List Cell) :
    ((valueCounts l).map Prod.snd).sum =
      (l.filter (fun c => !(c == Cell.na))).length := by
  unfold valueCounts sortCountDesc
  rw [((List.perm_insertionSort countGE _).map Prod.snd).sum_eq]
  rw [List.map_map]
  rw [show (Prod.snd ∘ fun c => ((c, countKey (l.filter
    (fun c => !(c == Cell.na))) c) : Cell × ℕ)) =
    fun c => countKey (l.filter (fun c => !(c == Cell.na))) c from rfl]
  exact distinctAux_counts_sum _ _ le_rfl

theorem calculate_statistics_distribution (df : DF) :
    (calculate_statistics df).equipment_distribution =
      if "Type" ∈ df.columns then valueCounts (df.get "Type") else [] := rfl

end CountLemmas

/-- C5: for every parsed dataset whose (stripped) CSV has a Type column of
the right length, the counts of the type distribution sum to
total_equipment: every record, including those imputed as Unknown, is
counted exactly once. -/
theorem c5_distribution_total (df0 : DF)
    (hty : "Type" ∈ (stripCols df0).columns)
    (hlen : ((stripCols df0).get "Type").length = df0.nrows) :
    (((calculate_statistics (parse_csv_file df0)).equipment_distribution).map
      Prod.snd).sum =
      (calculate_statistics (parse_csv_file df0)).total_equipment := by
  have htyp : "Type" ∈ (parse_csv_file df0).columns := by
    rw [parse_columns]
    exact hty
  rw [calculate_statistics_distribution, if_pos htyp, valueCounts_sum,
    parse_get_type df0 hty]
  rw [List.filter_eq_self.mpr ?noNA]
  case noNA =>
    intro x hx
    rcases List.mem_map.mp hx with ⟨y, _, rfl⟩
    cases y <;> rfl
  rw [List.length_map, hlen]
  rfl

/-- C5 witness: a two-row CSV with one missing Type value; both rows are
counted. -/
theorem c5_distribution_total_witness :
    ("Type" ∈ (stripCols ⟨[("Type", [Cell.na, Cell.str "Pump"])],
      2⟩).columns) ∧
    ((stripCols ⟨[("Type", [Cell.na, Cell.str "Pump"])], 2⟩).get "Type").length =
      (⟨[("Type", [Cell.na, Cell.str "Pump"])], 2⟩ : DF).nrows ∧
    (((calculate_statistics (parse_csv_file ⟨[("Type",
        [Cell.na, Cell.str "Pump"])], 2⟩)).equipment_distribution).map
      Prod.snd).sum =
      (calculate_statistics (parse_csv_file ⟨[("Type",
        [Cell.na, Cell.str "Pump"])], 2⟩)).total_equipment :=
  ⟨by decide, by decide,
    c5_distribution_total ⟨[("Type", [Cell.na, Cell.str "Pump"])], 2⟩
      (by decide) (by decide)⟩

section LookupLemmas

/-- The single-row lookup is empty when no dataset with the requested id is
owned by the requesting user. -/
theorem dbGet_eq_none (store : Store) (u pk : ℕ)
    (h : ∀ d ∈ store.datasets, d.id = pk → d.owner ≠ u) :
    dbGet store u pk = none := by
  unfold dbGet
  rw [List.find?_eq_none]
  intro d hd
  intro hcontra
  rcases Bool.and_eq_true _ _ |>.mp hcontra with ⟨h1, h2⟩
  exact h d hd (by simpa using h1) (by simpa using h2)

end LookupLemmas

/-- C9: for retrieve, destroy and statistics, the response when the
requested id exists but belongs to another user is identical to the
response when the id does not exist at all - the same 404 with the same
message - and destroy leaves the store unchanged in both cases, so a caller
cannot distinguish the two situations. -/
theorem c9_not_found_indistinguishable (s1 s2 : Store) (u pk : ℕ)
    (_h1 : ∃ d ∈ s1.datasets, d.id = pk)
    (h1o : ∀ d ∈ s1.datasets, d.id = pk → d.owner ≠ u)
    (h2 : ∀ d ∈ s2.datasets, d.id ≠ pk) :
    retrieveDs s1 u pk = retrieveDs s2 u pk ∧
    retrieveDs s1 u pk = Resp.err 404 "Dataset not found" ∧
    (destroyDs s1 u pk).2 = (destroyDs s2 u pk).2 ∧
    (destroyDs s1 u pk).1 = s1 ∧ (destroyDs s2 u pk).1 = s2 ∧
    statisticsDs s1 u pk = statisticsDs s2 u pk ∧
    statisticsDs s1 u pk = Resp.err 404 "Dataset not found" := by
  have hn1 : dbGet s1 u pk = none := dbGet_eq_none s1 u pk h1o
  have hn2 : dbGet s2 u pk = none :=
    dbGet_eq_none s2 u pk (fun d hd hid _ => h2 d hd hid)
  unfold retrieveDs destroyDs statisticsDs
  rw [hn1, hn2]
  exact ⟨rfl, rfl, rfl, rfl, rfl, rfl, rfl⟩

/-- C9 witness: a store holding dataset 1 owned by user 2, queried by user
7, answers exactly like the empty store. -/
theorem c9_not_found_indistinguishable_witness :
    retrieveDs ⟨[⟨1, 2, "a.csv", 0, [], 0, none, none, none, []⟩]⟩ 7 1 =
      retrieveDs ⟨[]⟩ 7 1 ∧
    retrieveDs ⟨[⟨1, 2, "a.csv", 0, [], 0, none, none, none, []⟩]⟩ 7 1 =
      Resp.err 404 "Dataset not found" :=
  ⟨(c9_not_found_indistinguishable
      ⟨[⟨1, 2, "a.csv", 0, [], 0, none, none, none, []⟩]⟩ ⟨[]⟩ 7 1
      ⟨⟨1, 2, "a.csv", 0, [], 0, none, none, none, []⟩, by decide, rfl⟩
      (by decide) (by decide)).1,
    (c9_not_found_indistinguishable
      ⟨[⟨1, 2, "a.csv", 0, [], 0, none, none, none, []⟩]⟩ ⟨[]⟩ 7 1
      ⟨⟨1, 2, "a.csv", 0, [], 0, none, none, none, []⟩, by decide, rfl⟩
      (by decide) (by decide)).2.1⟩

/-- C8: the upload handler is atomic in the deterministic model: on every
failing request (bad extension, oversized file, unparsable or invalid CSV)
the store is returned unchanged, and on every successful request the store
is exactly the old store with the one new complete dataset appended and the
retention sweep applied. All deterministic failure paths run before
anything is persisted; store operations themselves are modelled as
succeeding. -/
theorem c8_upload_atomic (store : Store) (u freshId ts : ℕ)
    (req : UploadRequest) :
    (∀ msg, (upload store u freshId ts req).2 = UploadOutcome.badRequest msg →
      (upload store u freshId ts req).1 = store) ∧
    (∀ d, (upload store u freshId ts req).2 = UploadOutcome.created d →
      (upload store u freshId ts req).1 =
        retentionSweep ⟨store.datasets ++ [d]⟩ u) := by
  unfold upload
  cases hv : validate_file req.filename req.filesize req.content with
  | some msg => exact ⟨fun _ _ => rfl, fun d hd => by cases hd⟩
  | none =>
    cases hc : req.content with
    | none => exact ⟨fun _ _ => rfl, fun d hd => by cases hd⟩
    | some df0 =>
      refine ⟨fun msg hmsg => (by cases hmsg), fun d hd => ?_⟩
      have : mkDataset u freshId ts req.filename (parse_csv_file df0) = d := by
        cases hd
        rfl
      rw [← this]

/-- C8 witness: a request with a non-CSV filename is rejected and leaves a
concrete store unchanged. -/
theorem c8_upload_atomic_witness :
    (upload ⟨[⟨1, 0, "a.csv", 0, [], 0, none, none, none, []⟩]⟩ 0 2 1
      ⟨"notes.txt", 10, none⟩).2 =
      UploadOutcome.badRequest "Invalid file format. Please upload a CSV file." ∧
    (upload ⟨[⟨1, 0, "a.csv", 0, [], 0, none, none, none, []⟩]⟩ 0 2 1
      ⟨"notes.txt", 10, none⟩).1 =
      ⟨[⟨1, 0, "a.csv", 0, [], 0, none, none, none, []⟩]⟩ :=
  ⟨by decide,
    (c8_upload_atomic ⟨[⟨1, 0, "a.csv", 0, [], 0, none, none, none, []⟩]⟩ 0 2 1
      ⟨"notes.txt", 10, none⟩).1
      "Invalid file format. Please upload a CSV file." (by decide)⟩

/-- C1: after a successful upload (new dataset appended, then the retention
sweep), the uploading user owns at most 5 datasets, the new dataset is among
them, and the surviving datasets are exactly the 5 most recent by upload
timestamp: they are a permutation of the first 5 of the candidates sorted
newest-first, and every surviving dataset is strictly more recent than every
deleted one. Hypotheses: primary keys are unique, the new timestamp is fresh
(strictly larger than the timestamps the user already has), and the user's
timestamps are distinct. -/
theorem c1_retention_after_upload (store : Store) (d : StoredDataset)
    (hids : ((store.datasets ++ [d]).map StoredDataset.id).Nodup)
    (hfresh : ∀ e ∈ store.datasets, e.owner = d.owner →
      e.uploaded_at < d.uploaded_at)
    (hts : ((ownedBy store d.owner).map StoredDataset.uploaded_at).Nodup) :
    let after := ownedBy (retentionSweep ⟨store.datasets ++ [d]⟩ d.owner) d.owner
    let cands := ownedBy store d.owner ++ [d]
    after.length ≤ MAX_DATASETS_PER_USER ∧
    after.length = min MAX_DATASETS_PER_USER cands.length ∧
    d ∈ after ∧
    List.Perm after
      ((List.insertionSort tsGE cands).take MAX_DATASETS_PER_USER) ∧
    (∀ x ∈ after, ∀ e ∈ cands, e ∉ after → e.uploaded_at < x.uploaded_at) := by
  intro after cands
  have hcands_eq : ownedBy ⟨store.datasets ++ [d]⟩ d.owner = cands := by
    show (store.datasets ++ [d]).filter (fun e => e.owner == d.owner) =
      store.datasets.filter (fun e => e.owner == d.owner) ++ [d]
    rw [List.filter_append]
    congr 1
    simp
  set uds := List.insertionSort tsGE cands with huds
  have hudsperm : List.Perm uds cands := List.perm_insertionSort tsGE cands
  have hudssorted : List.Pairwise tsGE uds := List.sorted_insertionSort tsGE cands
  have huser : userDatasetsDesc ⟨store.datasets ++ [d]⟩ d.owner = uds := by
    unfold userDatasetsDesc
    rw [hcands_eq]
  have hsub : List.Sublist cands (store.datasets ++ [d]) :=
    List.Sublist.append_right (List.filter_sublist _) [d]
  have hidsc : (cands.map StoredDataset.id).Nodup :=
    List.Sublist.nodup (List.Sublist.map _ hsub) hids
  have hcnodup : cands.Nodup := List.Nodup.of_map _ hidsc
  have hinj : ∀ x ∈ cands, ∀ y ∈ cands, x.id = y.id → x = y :=
    List.inj_on_of_nodup_map hidsc
  have htsc : (cands.map StoredDataset.uploaded_at).Nodup := by
    show ((ownedBy store d.owner ++ [d]).map StoredDataset.uploaded_at).Nodup
    rw [List.map_append, List.nodup_append]
    refine ⟨hts, List.nodup_singleton _, ?_⟩
    intro a ha hmem
    rcases List.mem_map.mp ha with ⟨e, he, rfl⟩
    have heo : e.owner = d.owner := by simpa using List.of_mem_filter he
    have hes : e ∈ store.datasets := List.mem_of_mem_filter he
    have hlt := hfresh e hes heo
    have heq : e.uploaded_at = d.uploaded_at := by simpa using hmem
    omega
  have htinj : ∀ x ∈ cands, ∀ y ∈ cands,
      x.uploaded_at = y.uploaded_at → x = y :=
    List.inj_on_of_nodup_map htsc
  have hdcands : d ∈ cands := List.mem_append_right _ (by simp)
  by_cases hlen : MAX_DATASETS_PER_USER <
      (userDatasetsDesc ⟨store.datasets ++ [d]⟩ d.owner).length
  case neg =>
    have hsw : retentionSweep ⟨store.datasets ++ [d]⟩ d.owner =
        ⟨store.datasets ++ [d]⟩ := by
      unfold retentionSweep
      rw [if_neg hlen]
    have hafter : after = cands := by
      show ownedBy (retentionSweep ⟨store.datasets ++ [d]⟩ d.owner) d.owner = cands
      rw [hsw]
      exact hcands_eq
    have hclen : cands.length ≤ MAX_DATASETS_PER_USER := by
      rw [huser] at hlen
      have := hudsperm.length_eq
      omega
    have htake : uds.take MAX_DATASETS_PER_USER = uds :=
      List.take_of_length_le (by rw [hudsperm.length_eq]; exact hclen)
    refine ⟨?_, ?_, ?_, ?_, ?_⟩
    · rw [hafter]
      exact hclen
    · rw [hafter, Nat.min_eq_right hclen]
    · rw [hafter]
      exact hdcands
    · rw [hafter, htake]
      exact hudsperm.symm
    · intro x _ e he hnot
      rw [hafter] at hnot
      exact absurd he hnot
  case pos =>
    rw [huser] at hlen
    set T := uds.take MAX_DATASETS_PER_USER with hT
    set D := uds.drop MAX_DATASETS_PER_USER with hD
    have hTD : T ++ D = uds := List.take_append_drop _ _
    have hsw : retentionSweep ⟨store.datasets ++ [d]⟩ d.owner =
        ⟨(store.datasets ++ [d]).filter
          (fun e => !(D.any (fun x => x.id == e.id)))⟩ := by
      show (if MAX_DATASETS_PER_USER <
          (userDatasetsDesc ⟨store.datasets ++ [d]⟩ d.owner).length then
        (⟨(store.datasets ++ [d]).filter (fun e =>
          !(((userDatasetsDesc ⟨store.datasets ++ [d]⟩ d.owner).drop
            MAX_DATASETS_PER_USER).any (fun x => x.id == e.id)))⟩ : Store)
        else ⟨store.datasets ++ [d]⟩) = _
      rw [huser, if_pos hlen]
    have hafter : after = cands.filter
        (fun e => !(D.any (fun x => x.id == e.id))) := by
      show ownedBy (retentionSweep ⟨store.datasets ++ [d]⟩ d.owner) d.owner = _
      rw [hsw]
      show ((store.datasets ++ [d]).filter
        (fun e => !(D.any (fun x => x.id == e.id)))).filter
          (fun e => e.owner == d.owner) = _
      have hrhs : cands.filter (fun e => !(D.any (fun x => x.id == e.id))) =
          ((store.datasets ++ [d]).filter (fun e => e.owner == d.owner)).filter
            (fun e => !(D.any (fun x => x.id == e.id))) := by
        rw [show (store.datasets ++ [d]).filter (fun e => e.owner == d.owner) =
          cands from hcands_eq]
      rw [hrhs, List.filter_filter, List.filter_filter]
      refine List.filter_congr ?_
      intro a _
      exact Bool.and_comm _ _
    have hudsnodup : uds.Nodup := (hudsperm.nodup_iff).mpr hcnodup
    have hdisj : ∀ a ∈ T, a ∉ D := by
      have h2 := hTD ▸ hudsnodup
      exact fun a ha hd => (List.nodup_append.mp h2).2.2 ha hd
    have hTc : ∀ x ∈ T, x ∈ cands := fun x hx =>
      (hudsperm.mem_iff).mp (List.mem_of_mem_take hx)
    have hDc : ∀ x ∈ D, x ∈ cands := fun x hx =>
      (hudsperm.mem_iff).mp (List.mem_of_mem_drop hx)
    have hTkeep : ∀ x ∈ T, (!(D.any (fun e => e.id == x.id))) = true := by
      intro x hx
      cases ha : D.any (fun e => e.id == x.id) with
      | false => rfl
      | true =>
        exfalso
        rcases List.any_eq_true.mp ha with ⟨e, he, heq⟩
        have hide : e.id = x.id := by simpa using heq
        have : x = e := hinj x (hTc x hx) e (hDc e he) hide.symm
        exact (hdisj x hx) (this ▸ he)
    have hDkeep : ∀ x ∈ D, ¬((!(D.any (fun e => e.id == x.id))) = true) := by
      intro x hx
      have : D.any (fun e => e.id == x.id) = true :=
        List.any_eq_true.mpr ⟨x, hx, by simp⟩
      simp [this]
    have hafterperm : List.Perm after T := by
      rw [hafter]
      have h1 : List.Perm
          (cands.filter (fun e => !(D.any (fun x => x.id == e.id))))
          ((T ++ D).filter (fun e => !(D.any (fun x => x.id == e.id)))) := by
        refine List.Perm.filter _ ?_
        rw [hTD]
        exact hudsperm.symm
      have h2 : (T ++ D).filter (fun e => !(D.any (fun x => x.id == e.id))) =
          T := by
        rw [List.filter_append, List.filter_eq_self.mpr (hTkeep),
          List.filter_eq_nil_iff.mpr (hDkeep), List.append_nil]
      rw [h2] at h1
      exact h1
    have hlenT : T.length = MAX_DATASETS_PER_USER := by
      rw [hT, List.length_take]
      omega
    have hlenafter : after.length = MAX_DATASETS_PER_USER := by
      rw [hafterperm.length_eq, hlenT]
    have hcross : ∀ x ∈ T, ∀ e ∈ D, e.uploaded_at ≤ x.uploaded_at := by
      have hp := hTD ▸ hudssorted
      exact fun x hx e he => (List.pairwise_append.mp hp).2.2 x hx e he
    refine ⟨?_, ?_, ?_, ?_, ?_⟩
    · omega
    · have : cands.length = uds.length := hudsperm.length_eq.symm
      omega
    · have hduds : d ∈ uds := (hudsperm.mem_iff).mpr hdcands
      have hdD : d ∉ D := by
        intro hdD
        have hTpos : 0 < T.length := by
          rw [hlenT]
          decide
        rcases List.length_pos_iff_exists_mem.mp hTpos with ⟨t, ht⟩
        have htd : d.uploaded_at ≤ t.uploaded_at := hcross t ht d hdD
        have htne : t ≠ d := fun h => (hdisj t ht) (h ▸ hdD)
        have htc : t ∈ cands := hTc t ht
        rcases List.mem_append.mp htc with h1 | h2
        · have hto : t.owner = d.owner := by simpa using List.of_mem_filter h1
          have hlt := hfresh t (List.mem_of_mem_filter h1) hto
          omega
        · exact htne (by simpa using h2)
      have hdT : d ∈ T := by
        rcases List.mem_append.mp (hTD ▸ hduds) with h1 | h2
        · exact h1
        · exact absurd h2 hdD
      exact (hafterperm.mem_iff).mpr hdT
    · exact hafterperm
    · intro x hx e he hne
      have hxT : x ∈ T := (hafterperm.mem_iff).mp hx
      have heuds : e ∈ uds := (hudsperm.mem_iff).mpr he
      have heD : e ∈ D := by
        rcases List.mem_append.mp (hTD ▸ heuds) with h1 | h2
        · exact absurd ((hafterperm.mem_iff).mpr h1) hne
        · exact h2
      have hle : e.uploaded_at ≤ x.uploaded_at := hcross x hxT e heD
      have hne2 : x ≠ e := fun h => (hdisj x hxT) (h ▸ heD)
      have htsne : x.uploaded_at ≠ e.uploaded_at :=
        fun h => hne2 (htinj x (hTc x hxT) e he h)
      omega

/-- C1 witness: a 6th upload for a user already owning 5 datasets leaves at
most 5 datasets, the new one among them. -/
theorem c1_retention_after_upload_witness :
    ((exampleStore5.datasets ++ [exampleD6]).map StoredDataset.id).Nodup ∧
    (ownedBy (retentionSweep ⟨exampleStore5.datasets ++ [exampleD6]⟩
      exampleD6.owner) exampleD6.owner).length ≤ MAX_DATASETS_PER_USER ∧
    exampleD6 ∈ ownedBy (retentionSweep ⟨exampleStore5.datasets ++ [exampleD6]⟩
      exampleD6.owner) exampleD6.owner :=
  ⟨by decide,
    (c1_retention_after_upload exampleStore5 exampleD6
      (by decide) (by decide) (by decide)).1,
    (c1_retention_after_upload exampleStore5 exampleD6
      (by decide) (by decide) (by decide)).2.2.1⟩

end CEV
